import Mathlib

/- Verification development for the book_alchemy library application.

   The embedding below translates src/app.py: the storage model for authors and
   books, the home listing route (search filter, sort order, status message),
   and the mutation routes add_author, add_book and delete_book.  Python string
   and date primitives used by the routes (str.strip, int, date.fromisoformat)
   and the SQL operations issued through the ORM (ilike pattern matching,
   ORDER BY on text, the unique-constraint check at commit) are modelled
   explicitly as executable functions. -/

namespace BookAlchemy

/-- Models Python str.strip with no argument: removes leading and trailing
    whitespace characters. -/
def pyStrip (s : String) : String :=
  String.mk (((s.data.dropWhile Char.isWhitespace).reverse.dropWhile
    Char.isWhitespace).reverse)

/-- Numeric value of a decimal digit character. -/
def digitVal (c : Char) : Nat := c.toNat - 48

/-- Decimal value of a digit list, most significant digit first. -/
def digitsVal (cs : List Char) : Nat :=
  cs.foldl (fun acc c => acc * 10 + digitVal c) 0

/-- Models Python int applied to a decimal string: an optional sign followed by
    a nonempty run of decimal digits; none models the ValueError that int
    raises on any other input. -/
def pyInt (s : String) : Option Int :=
  match s.data with
  | [] => none
  | c :: rest =>
    if c = '-' then
      if !rest.isEmpty && rest.all Char.isDigit then
        some (-(digitsVal rest : Int))
      else none
    else if c = '+' then
      if !rest.isEmpty && rest.all Char.isDigit then
        some ((digitsVal rest : Int))
      else none
    else
      if (c :: rest).all Char.isDigit then
        some ((digitsVal (c :: rest) : Int))
      else none

/-- Whether a year is a leap year in the proleptic Gregorian calendar used by
    Python datetime.date. -/
def isLeapYear (y : Nat) : Bool :=
  (y % 4 == 0 && y % 100 != 0) || (y % 400 == 0)

/-- Number of days in a month of a given year. -/
def daysInMonth (y m : Nat) : Nat :=
  if m == 2 then (if isLeapYear y then 29 else 28)
  else if m == 4 || m == 6 || m == 9 || m == 11 then 30
  else 31

/-- Calendar date value as held by Python datetime.date. -/
structure PyDate where
  year : Nat
  month : Nat
  day : Nat
deriving DecidableEq, Repr

/-- Models Python date.fromisoformat: accepts exactly the ISO 8601 form
    YYYY-MM-DD denoting a valid calendar date with year at least 1; none models
    the ValueError raised on any other input. -/
def fromisoformat (s : String) : Option PyDate :=
  match s.data with
  | [y1, y2, y3, y4, sep1, m1, m2, sep2, d1, d2] =>
    if y1.isDigit && y2.isDigit && y3.isDigit && y4.isDigit && sep1 == '-' &&
        m1.isDigit && m2.isDigit && sep2 == '-' && d1.isDigit && d2.isDigit then
      let y := ((digitVal y1 * 10 + digitVal y2) * 10 + digitVal y3) * 10 +
        digitVal y4
      let m := digitVal m1 * 10 + digitVal m2
      let d := digitVal d1 * 10 + digitVal d2
      if 1 ≤ y && 1 ≤ m && m ≤ 12 && 1 ≤ d && d ≤ daysInMonth y m then
        some { year := y, month := m, day := d }
      else none
    else none
  | _ => none

/-- Models the expression pattern used in add_author, for example the line
    birth_date equals date.fromisoformat of the raw text when the raw text is
    nonempty else None: the outer none is a raised ValueError, the inner none
    is the stored null. -/
def parseOptDate (raw : String) : Option (Option PyDate) :=
  if raw = "" then some none
  else (fromisoformat raw).map some

/-- Models the expression pattern in add_book for publication_year: int of the
    raw text when nonempty else None; the outer none is a raised ValueError. -/
def parseOptInt (raw : String) : Option (Option Int) :=
  if raw = "" then some none
  else (pyInt raw).map some

/-- Modelled from the spec: the file data_models.py defining the Author table
    is not in src/.  Spec section 3: identifier (unique, system-assigned), name
    (required text), optional birth date and date of death. -/
structure Author where
  id : Int
  name : String
  birth_date : Option PyDate
  date_of_death : Option PyDate
deriving DecidableEq, Repr

/-- Modelled from the spec: the file data_models.py defining the Book table is
    not in src/.  Spec section 3: identifier, ISBN (required, unique across all
    books), title, optional integer publication year, author reference. -/
structure Book where
  id : Int
  isbn : String
  title : String
  publication_year : Option Int
  author_id : Int
deriving DecidableEq, Repr

/-- The relational store: the authors and books tables, each a list of rows. -/
structure Store where
  authors : List Author
  books : List Book
deriving DecidableEq, Repr

/-- Modelled from the spec: committing an insert of a book raises
    IntegrityError when its ISBN equals the ISBN of a book already in the store
    (spec section 4.1, storage-level ISBN uniqueness constraint declared in the
    missing data_models.py). -/
def isbnConflict (s : Store) (isbn : String) : Bool :=
  s.books.any (fun b => b.isbn == isbn)

/-- System-assigned identifier for a newly inserted author row: one more than
    the largest identifier in use (SQLite rowid assignment). -/
def nextAuthorId (s : Store) : Int :=
  (s.authors.map Author.id).foldl max 0 + 1

/-- System-assigned identifier for a newly inserted book row. -/
def nextBookId (s : Store) : Int :=
  (s.books.map Book.id).foldl max 0 + 1

/-- Models SQL LIKE pattern matching over character lists: percent matches any
    character sequence, underscore matches exactly one character, every other
    pattern character matches itself.  Case folding is done by the caller. -/
def likeMatch : List Char → List Char → Bool
  | [], [] => true
  | [], _ :: _ => false
  | c :: p, [] => if c = '%' then likeMatch p [] else false
  | c :: p, d :: t =>
    if c = '%' then likeMatch p (d :: t) || likeMatch (c :: p) t
    else if c = '_' then likeMatch p t
    else c == d && likeMatch p t
termination_by p s => (s.length, p.length)

/-- Models SQL lower applied to a text value, as a character list.  Char.toLower
    lowercases the ASCII range, matching the SQLite lower function. -/
def sqlLower (s : String) : List Char := s.data.map Char.toLower

/-- Models the SQLAlchemy ilike operator as compiled for SQLite: lower both the
    column value and the pattern, then match with LIKE. -/
def ilike (field pat : String) : Bool :=
  likeMatch (sqlLower pat) (sqlLower field)

/-- A row of the joined listing: a book together with its author. -/
structure Row where
  book : Book
  author : Author
deriving DecidableEq, Repr

/-- Models the inner join Book.query.join(Author) in home: each book paired with
    the author row its author_id references; a book whose author_id matches no
    author contributes no row. -/
def joinRows (s : Store) : List Row :=
  s.books.filterMap (fun b =>
    (s.authors.find? (fun a => a.id == b.author_id)).map
      (fun a => { book := b, author := a }))

/-- The filter condition of home: the query text is wildcard-wrapped into the
    pattern percent-q-percent and matched with ilike against the book title,
    the book ISBN, or the author name. -/
def rowMatches (q : String) (r : Row) : Bool :=
  let like := "%" ++ q ++ "%"
  ilike r.book.title like || ilike r.book.isbn like || ilike r.author.name like

/-- The query of home after the optional filter step: all joined rows when the
    stripped query text is empty, otherwise only the matching rows. -/
def filteredRows (s : Store) (q : String) : List Row :=
  if q != "" then (joinRows s).filter (rowMatches q) else joinRows s

/-- Models SQL ORDER BY ascending comparison of two text values under the
    SQLite BINARY collation: lexicographic comparison of code points. -/
def strLeB : List Char → List Char → Bool
  | [], _ => true
  | _ :: _, [] => false
  | c :: cs, d :: ds => if c < d then true else if d < c then false else strLeB cs ds

/-- Ascending text comparison on strings. -/
def strLe (a b : String) : Bool := strLeB a.data b.data

/-- The ordering used by home when sort is not author: Book.title ascending. -/
def titleLe (r1 r2 : Row) : Bool := strLe r1.book.title r2.book.title

/-- The ordering used by home when sort is author: Author.name ascending, then
    Book.title ascending as the tie-break. -/
def authorTitleLe (r1 r2 : Row) : Bool :=
  if r1.author.name = r2.author.name then strLe r1.book.title r2.book.title
  else strLe r1.author.name r2.author.name

/-- Translation of the home route:          src/app.py lines 23 to 54.
    Takes the sort, q and msg request parameters (q and msg stripped, as in the
    source) and returns the ordered book listing together with the optional
    status message passed to the template. -/
def home (s : Store) (sortArg qArg msgArg : String) : List Row × Option String :=
  let sort := sortArg
  let q := pyStrip qArg
  let msg := pyStrip msgArg
  let filtered := filteredRows s q
  let books :=
    if sort == "author" then filtered.mergeSort authorTitleLe
    else filtered.mergeSort titleLe
  let message0 : Option String :=
    if q != "" && books.length == 0 then
      some ("No books match: \x27" ++ q ++ "\x27")
    else none
  let message := if msg != "" then some msg else message0
  (books, message)

/-- A Python exception escaping a route handler (int or date.fromisoformat on
    malformed input raises ValueError, which app.py does not catch). -/
inductive PyError where
  | valueError
deriving DecidableEq, Repr

/-- Outcome of the add_author POST handler. -/
inductive AddAuthorResult where
  | validationError (message : String)
  | success (message : String)
deriving DecidableEq, Repr

/-- Translation of the add_author POST handler: src/app.py lines 57 to 84.
    Strips the three form fields, parses the date fields (raising on malformed
    input), rejects an empty name with a validation message, and otherwise
    inserts the author and reports success. -/
def add_author (s : Store) (nameArg birthArg deathArg : String) :
    Except PyError (Store × AddAuthorResult) :=
  let name := pyStrip nameArg
  let birth_date_raw := pyStrip birthArg
  let date_of_death_raw := pyStrip deathArg
  match parseOptDate birth_date_raw with
  | none => Except.error PyError.valueError
  | some birth_date =>
    match parseOptDate date_of_death_raw with
    | none => Except.error PyError.valueError
    | some date_of_death =>
      if name == "" then
        Except.ok (s, AddAuthorResult.validationError "Name is required.")
      else
        Except.ok
          ({ s with authors := s.authors ++
              [{ id := nextAuthorId s, name := name, birth_date := birth_date,
                 date_of_death := date_of_death }] },
           AddAuthorResult.success
             ("Author \x27" ++ name ++ "\x27 added successfully."))

/-- Outcome of the add_book POST handler. -/
inductive AddBookResult where
  | validationError (message : String)
  | conflictError (message : String)
  | success (message : String)
deriving DecidableEq, Repr

/-- Translation of the add_book POST handler: src/app.py lines 87 to 125.
    Strips the four form fields, rejects an empty ISBN, title or author with a
    validation message, parses the optional publication year and the author id
    (raising on malformed input), and commits the insert: on an ISBN conflict
    the insert is rolled back and the conflict message names the ISBN,
    otherwise the book row is persisted and success is reported. -/
def add_book (s : Store) (isbnArg titleArg pubArg authorArg : String) :
    Except PyError (Store × AddBookResult) :=
  let isbn := pyStrip isbnArg
  let title := pyStrip titleArg
  let publication_year_raw := pyStrip pubArg
  let author_id_raw := pyStrip authorArg
  if isbn == "" || title == "" || author_id_raw == "" then
    Except.ok (s, AddBookResult.validationError "ISBN, Title, and Author are required.")
  else
    match parseOptInt publication_year_raw with
    | none => Except.error PyError.valueError
    | some publication_year =>
      match pyInt author_id_raw with
      | none => Except.error PyError.valueError
      | some author_id =>
        if isbnConflict s isbn then
          Except.ok (s, AddBookResult.conflictError
            ("ISBN \x27" ++ isbn ++
              "\x27 already exists. Please use a unique ISBN or edit the existing book."))
        else
          Except.ok
            ({ s with books := s.books ++
                [{ id := nextBookId s, isbn := isbn, title := title,
                   publication_year := publication_year, author_id := author_id }] },
             AddBookResult.success
               ("Book \x27" ++ title ++ "\x27 added successfully."))

/-- Failure of the delete_book handler: get_or_404 found no book row. -/
inductive DeleteError where
  | notFound
deriving DecidableEq, Repr

/-- Translation of the delete_book handler: src/app.py lines 128 to 145.
    Looks the book up by id (not-found failure when absent), deletes it and
    commits, then counts the remaining books of its author; when none remain
    and the author row still exists, the author is deleted in a second commit.
    Returns the store and the confirmation message carried by the redirect. -/
def delete_book (s : Store) (book_id : Int) : Except DeleteError (Store × String) :=
  match s.books.find? (fun b => b.id == book_id) with
  | none => Except.error DeleteError.notFound
  | some book =>
    let author_id := book.author_id
    let s1 : Store := { s with books := s.books.filter (fun b => b.id != book_id) }
    let remaining := (s1.books.filter (fun b => b.author_id == author_id)).length
    let s2 : Store :=
      if remaining == 0 then
        match s1.authors.find? (fun a => a.id == author_id) with
        | some _ =>
          { s1 with authors := s1.authors.filter (fun a => a.id != author_id) }
        | none => s1
      else s1
    Except.ok (s2, "Deleted book \x27" ++ book.title ++ "\x27.")

/-- One request against the application, for stating store invariants. -/
inductive Op where
  | addAuthor (nameArg birthArg deathArg : String)
  | addBook (isbnArg titleArg pubArg authorArg : String)
  | deleteBook (book_id : Int)
  | listBooks (sortArg qArg msgArg : String)
deriving DecidableEq, Repr

/-- The store after one request: a handler that fails with an exception leaves
    the store unchanged (the staged insert is discarded with the session), and
    the home listing is read-only. -/
def applyOp (s : Store) (op : Op) : Store :=
  match op with
  | Op.addAuthor n b d =>
    match add_author s n b d with
    | Except.ok (s2, _) => s2
    | Except.error _ => s
  | Op.addBook i t p a =>
    match add_book s i t p a with
    | Except.ok (s2, _) => s2
    | Except.error _ => s
  | Op.deleteBook book_id =>
    match delete_book s book_id with
    | Except.ok (s2, _) => s2
    | Except.error _ => s
  | Op.listBooks _ _ _ => s

/-- The ISBN uniqueness invariant: no two book rows share an ISBN. -/
def isbnUnique (s : Store) : Prop :=
  (s.books.map Book.isbn).Nodup

/-- Case-insensitive substring test, following the specification words for the
    search contract: the query is a substring of the field up to case. -/
def isCaseInsensitiveSubstr (q s : String) : Bool :=
  decide (sqlLower q <:+: sqlLower s)

/-- Matcher written from the specification words, for comparison with the
    source-derived rowMatches: a case-insensitive substring match against any
    of book title, book ISBN, or author name. -/
def specMatches (q : String) (r : Row) : Bool :=
  isCaseInsensitiveSubstr q r.book.title || isCaseInsensitiveSubstr q r.book.isbn ||
    isCaseInsensitiveSubstr q r.author.name

/-- Empty store, used to instantiate theorems at concrete inputs. -/
def storeEmpty : Store := { authors := [], books := [] }

/-- Concrete author fixture. -/
def authorX : Author := { id := 1, name := "X", birth_date := none, date_of_death := none }

/-- Concrete book fixture with title AB owned by authorX. -/
def bookAB : Book :=
  { id := 1, isbn := "99", title := "AB", publication_year := none, author_id := 1 }

/-- Store holding authorX and bookAB. -/
def storeAB : Store := { authors := [authorX], books := [bookAB] }

/-- The joined row for bookAB. -/
def rowAB : Row := { book := bookAB, author := authorX }

/-- Concrete book fixture whose author id 7 matches no author row. -/
def bookGhost : Book :=
  { id := 3, isbn := "55", title := "Ghost", publication_year := none, author_id := 7 }

/-- Store holding bookGhost but no author with id 7. -/
def storeGhost : Store := { authors := [authorX], books := [bookGhost] }

/-- Second concrete book fixture owned by authorX. -/
def bookCD : Book :=
  { id := 2, isbn := "88", title := "CD", publication_year := none, author_id := 1 }

/-- Store holding authorX with two books. -/
def storeTwo : Store := { authors := [authorX], books := [bookAB, bookCD] }

/-- Reflexivity of the text comparison. -/
theorem strLeB_refl (a : List Char) : strLeB a a = true := by
  induction a with
  | nil => rfl
  | cons c cs ih => simp [strLeB, lt_self_iff_false, ih]

/-- Totality of the text comparison. -/
theorem strLeB_total (a : List Char) : ∀ b, strLeB a b = true ∨ strLeB b a = true := by
  induction a with
  | nil => intro b; left; rfl
  | cons c cs ih =>
    intro b
    cases b with
    | nil => right; rfl
    | cons d ds =>
      rcases lt_trichotomy c d with h | h | h
      · left; simp [strLeB, h]
      · subst h
        rcases ih ds with h2 | h2
        · left; simp [strLeB, lt_self_iff_false, h2]
        · right; simp [strLeB, lt_self_iff_false, h2]
      · right; simp [strLeB, h]

/-- Transitivity of the text comparison. -/
theorem strLeB_trans (a : List Char) :
    ∀ b c, strLeB a b = true → strLeB b c = true → strLeB a c = true := by
  induction a with
  | nil => intro b c _ _; rfl
  | cons x xs ih =>
    intro b c h1 h2
    cases b with
    | nil => simp [strLeB] at h1
    | cons y ys =>
      cases c with
      | nil => simp [strLeB] at h2
      | cons z zs =>
        rcases lt_trichotomy x y with hxy | hxy | hxy
        · rcases lt_trichotomy y z with hyz | hyz | hyz
          · simp [strLeB, lt_trans hxy hyz]
          · subst hyz; simp [strLeB, hxy]
          · simp [strLeB, hyz, lt_asymm hyz] at h2
        · subst hxy
          rcases lt_trichotomy x z with hxz | hxz | hxz
          · simp [strLeB, hxz]
          · subst hxz
            simp [strLeB, lt_self_iff_false] at h1 h2 ⊢
            exact ih _ _ h1 h2
          · simp [strLeB, hxz, lt_asymm hxz] at h2
        · simp [strLeB, hxy, lt_asymm hxy] at h1

/-- Antisymmetry of the text comparison. -/
theorem strLeB_antisymm (a : List Char) :
    ∀ b, strLeB a b = true → strLeB b a = true → a = b := by
  induction a with
  | nil =>
    intro b _ h2
    cases b with
    | nil => rfl
    | cons d ds => simp [strLeB] at h2
  | cons c cs ih =>
    intro b h1 h2
    cases b with
    | nil => simp [strLeB] at h1
    | cons d ds =>
      rcases lt_trichotomy c d with h | h | h
      · simp [strLeB, h, lt_asymm h] at h2
      · subst h
        simp [strLeB, lt_self_iff_false] at h1 h2
        rw [ih ds h1 h2]
      · simp [strLeB, h, lt_asymm h] at h1

/-- Totality of the string comparison. -/
theorem strLe_total (a b : String) : strLe a b = true ∨ strLe b a = true :=
  strLeB_total a.data b.data

/-- Transitivity of the string comparison. -/
theorem strLe_trans {a b c : String} (h1 : strLe a b = true) (h2 : strLe b c = true) :
    strLe a c = true :=
  strLeB_trans a.data b.data c.data h1 h2

/-- Antisymmetry of the string comparison. -/
theorem strLe_antisymm {a b : String} (h1 : strLe a b = true) (h2 : strLe b a = true) :
    a = b := by
  apply String.ext
  exact strLeB_antisymm a.data b.data h1 h2

/-- Transitivity of the title ordering. -/
theorem titleLe_trans (r1 r2 r3 : Row) (h1 : titleLe r1 r2 = true)
    (h2 : titleLe r2 r3 = true) : titleLe r1 r3 = true :=
  strLe_trans h1 h2

/-- Totality of the title ordering. -/
theorem titleLe_total (r1 r2 : Row) : (titleLe r1 r2 || titleLe r2 r1) = true := by
  rcases strLe_total r1.book.title r2.book.title with h | h <;> simp [titleLe, h]

/-- Transitivity of the author-then-title ordering. -/
theorem authorTitleLe_trans (r1 r2 r3 : Row) (h1 : authorTitleLe r1 r2 = true)
    (h2 : authorTitleLe r2 r3 = true) : authorTitleLe r1 r3 = true := by
  unfold authorTitleLe at h1 h2 ⊢
  by_cases e12 : r1.author.name = r2.author.name
  · by_cases e23 : r2.author.name = r3.author.name
    · rw [if_pos e12] at h1; rw [if_pos e23] at h2
      rw [if_pos (e12.trans e23)]
      exact strLe_trans h1 h2
    · rw [if_neg e23] at h2
      have e13 : r1.author.name ≠ r3.author.name := fun h => e23 (e12.symm.trans h)
      rw [if_neg e13, e12]
      exact h2
  · by_cases e23 : r2.author.name = r3.author.name
    · rw [if_neg e12] at h1
      have e13 : r1.author.name ≠ r3.author.name := fun h => e12 (h.trans e23.symm)
      rw [if_neg e13, ← e23]
      exact h1
    · rw [if_neg e12] at h1; rw [if_neg e23] at h2
      by_cases e13 : r1.author.name = r3.author.name
      · exfalso
        apply e12
        exact strLe_antisymm h1 (by rw [← e13] at h2; exact h2)
      · rw [if_neg e13]
        exact strLe_trans h1 h2

/-- Totality of the author-then-title ordering. -/
theorem authorTitleLe_total (r1 r2 : Row) :
    (authorTitleLe r1 r2 || authorTitleLe r2 r1) = true := by
  unfold authorTitleLe
  by_cases e : r1.author.name = r2.author.name
  · rw [if_pos e, if_pos e.symm]
    rcases strLe_total r1.book.title r2.book.title with h | h <;> simp [h]
  · rw [if_neg e, if_neg (Ne.symm e)]
    rcases strLe_total r1.author.name r2.author.name with h | h <;> simp [h]

/-- The book listing component of home, written out. -/
theorem home_fst (s : Store) (sortArg qArg msgArg : String) :
    (home s sortArg qArg msgArg).fst =
      if sortArg == "author" then (filteredRows s (pyStrip qArg)).mergeSort authorTitleLe
      else (filteredRows s (pyStrip qArg)).mergeSort titleLe := rfl

/-- C4: for every store and parameters, the home listing is a permutation of
    the filtered rows; when the sort parameter is author it is ordered by
    author name ascending with title ascending as the tie-break, and for any
    other sort value (including the default title) it is ordered by title
    ascending. -/
theorem home_sorted (s : Store) (sortArg qArg msgArg : String) :
    ((home s sortArg qArg msgArg).fst).Perm (filteredRows s (pyStrip qArg)) ∧
    (sortArg = "author" →
      List.Sorted (fun r1 r2 : Row => authorTitleLe r1 r2 = true)
        (home s sortArg qArg msgArg).fst) ∧
    (sortArg ≠ "author" →
      List.Sorted (fun r1 r2 : Row => titleLe r1 r2 = true)
        (home s sortArg qArg msgArg).fst) := by
  refine ⟨?_, ?_, ?_⟩
  · rw [home_fst]
    by_cases h : (sortArg == "author") = true
    · rw [if_pos h]; exact List.mergeSort_perm _ _
    · rw [if_neg h]; exact List.mergeSort_perm _ _
  · intro h
    rw [home_fst, if_pos (by simp [h])]
    show List.Pairwise _ _
    exact List.sorted_mergeSort (fun a b c => authorTitleLe_trans a b c)
      (fun a b => authorTitleLe_total a b) _
  · intro h
    rw [home_fst, if_neg (by simp [h])]
    show List.Pairwise _ _
    exact List.sorted_mergeSort (fun a b c => titleLe_trans a b c)
      (fun a b => titleLe_total a b) _

/-- Witness for C4 at a concrete store and both shapes of the sort value. -/
theorem home_sorted_witness :
    List.Sorted (fun r1 r2 : Row => authorTitleLe r1 r2 = true)
      (home storeTwo "author" "" "").fst ∧
    List.Sorted (fun r1 r2 : Row => titleLe r1 r2 = true)
      (home storeTwo "title" "" "").fst :=
  ⟨(home_sorted storeTwo "author" "" "").2.1 rfl,
   (home_sorted storeTwo "title" "" "").2.2 (by decide)⟩

/-- A pattern beginning with percent matches a string exactly when some suffix
    of the string matches the rest of the pattern. -/
theorem likeMatch_percent (p : List Char) :
    ∀ s, likeMatch ('%' :: p) s = true ↔ ∃ t, t <:+ s ∧ likeMatch p t = true := by
  intro s
  induction s with
  | nil =>
    have h0 : likeMatch ('%' :: p) [] = likeMatch p [] := by simp [likeMatch]
    rw [h0]
    constructor
    · intro h; exact ⟨[], List.suffix_rfl, h⟩
    · rintro ⟨t, ht, h⟩
      rw [List.suffix_nil.mp ht] at h
      exact h
  | cons d t ih =>
    have h0 : likeMatch ('%' :: p) (d :: t) =
        (likeMatch p (d :: t) || likeMatch ('%' :: p) t) := by simp [likeMatch]
    rw [h0, Bool.or_eq_true, ih]
    constructor
    · rintro (h | ⟨u, hu, h⟩)
      · exact ⟨d :: t, List.suffix_rfl, h⟩
      · exact ⟨u, hu.trans (List.suffix_cons d t), h⟩
    · rintro ⟨u, hu, h⟩
      rcases List.suffix_cons_iff.mp hu with h1 | h1
      · left; rw [← h1]; exact h
      · right; exact ⟨u, h1, h⟩

/-- The pattern consisting of a single percent matches every string. -/
theorem likeMatch_percent_all (s : List Char) : likeMatch ['%'] s = true :=
  (likeMatch_percent [] s).mpr ⟨[], List.nil_suffix, by simp [likeMatch]⟩

/-- A wildcard-free pattern followed by percent matches a string exactly when
    the pattern is a prefix of the string. -/
theorem likeMatch_litFront :
    ∀ q : List Char, (∀ c ∈ q, c ≠ '%' ∧ c ≠ '_') →
      ∀ s, likeMatch (q ++ ['%']) s = true ↔ q <+: s := by
  intro q
  induction q with
  | nil =>
    intro _ s
    simp [likeMatch_percent_all s, List.nil_prefix]
  | cons c q ih =>
    intro hq s
    obtain ⟨hc1, hc2⟩ := hq c (List.mem_cons_self c q)
    have hq2 : ∀ d ∈ q, d ≠ '%' ∧ d ≠ '_' :=
      fun d hd => hq d (List.mem_cons_of_mem c hd)
    cases s with
    | nil =>
      have h0 : likeMatch ((c :: q) ++ ['%']) [] = false := by
        simp [likeMatch, hc1]
      rw [h0]
      simp [List.prefix_nil]
    | cons d t =>
      have h0 : likeMatch ((c :: q) ++ ['%']) (d :: t) =
          (c == d && likeMatch (q ++ ['%']) t) := by
        simp [likeMatch, hc1, hc2]
      rw [h0, Bool.and_eq_true, beq_iff_eq, ih hq2 t, List.cons_prefix_cons]

/-- The wildcard-wrapped pattern built from wildcard-free text matches exactly
    the strings having that text as an infix. -/
theorem likeMatch_wrap (q s : List Char) (hq : ∀ c ∈ q, c ≠ '%' ∧ c ≠ '_') :
    likeMatch ('%' :: (q ++ ['%'])) s = true ↔ q <:+: s := by
  rw [likeMatch_percent]
  constructor
  · rintro ⟨t, ht, h⟩
    exact ( List.infix_iff_prefix_suffix).mpr
      ⟨t, (likeMatch_litFront q hq t).mp h, ht⟩
  · intro h
    obtain ⟨t, hpre, hsuf⟩ := ( List.infix_iff_prefix_suffix).mp h
    exact ⟨t, hsuf, (likeMatch_litFront q hq t).mpr hpre⟩

/-- Lowering distributes over string append. -/
theorem sqlLower_append (a b : String) :
    sqlLower (a ++ b) = sqlLower a ++ sqlLower b := by
  simp [sqlLower, String.data_append]

/-- Lowering the percent string. -/
theorem sqlLower_percent : sqlLower "%" = ['%'] := by decide

/-- Lowering the wildcard-wrapped pattern of home. -/
theorem sqlLower_wrap (q : String) :
    sqlLower ("%" ++ q ++ "%") = '%' :: (sqlLower q ++ ['%']) := by
  rw [sqlLower_append, sqlLower_append, sqlLower_percent]
  simp

/-- On wildcard-free query text the ilike test against the wrapped pattern is
    the case-insensitive substring test. -/
theorem ilike_wrap (f q : String) (hq : ∀ c ∈ sqlLower q, c ≠ '%' ∧ c ≠ '_') :
    ilike f ("%" ++ q ++ "%") = isCaseInsensitiveSubstr q f := by
  unfold ilike isCaseInsensitiveSubstr
  rw [sqlLower_wrap, Bool.eq_iff_iff, decide_eq_true_eq]
  exact likeMatch_wrap (sqlLower q) (sqlLower f) hq

/-- On wildcard-free query text the source filter agrees with the matcher
    written from the specification words. -/
theorem rowMatches_eq_specMatches (q : String) (r : Row)
    (hq : ∀ c ∈ sqlLower q, c ≠ '%' ∧ c ≠ '_') :
    rowMatches q r = specMatches q r := by
  simp only [rowMatches, specMatches]
  rw [ilike_wrap _ _ hq, ilike_wrap _ _ hq, ilike_wrap _ _ hq]

/-- The home listing is always a permutation of the filtered joined rows. -/
theorem home_fst_perm (s : Store) (sortArg qArg msgArg : String) :
    ((home s sortArg qArg msgArg).fst).Perm (filteredRows s (pyStrip qArg)) := by
  rw [home_fst]
  by_cases h : (sortArg == "author") = true
  · rw [if_pos h]; exact List.mergeSort_perm _ _
  · rw [if_neg h]; exact List.mergeSort_perm _ _

/-- C3 counterexample: with the filter text underscore, home returns the row of
    bookAB although underscore is not a case-insensitive substring of its
    title, its ISBN or its author name, because underscore is a LIKE wildcard
    matching any single character. -/
theorem home_substring_counterexample :
    rowAB ∈ (home storeAB "title" "_" "").fst ∧ specMatches "_" rowAB = false := by
  constructor
  · have hm : rowMatches "_" rowAB = true := by
      have h2 : ilike rowAB.book.title ("%" ++ "_" ++ "%") = true := by
        unfold ilike
        rw [sqlLower_wrap,
          show sqlLower "_" = ['_'] from by decide,
          show sqlLower rowAB.book.title = ['a', 'b'] from by decide]
        simp [likeMatch]
      simp only [rowMatches]
      rw [h2]
      simp
    have h1 : filteredRows storeAB "_" = [rowAB] := by
      rw [show filteredRows storeAB "_" = (joinRows storeAB).filter (rowMatches "_")
          from by simp [filteredRows],
        show joinRows storeAB = [rowAB] from by decide]
      simp [List.filter_cons, hm]
    rw [home_fst, if_neg (by decide), show pyStrip "_" = "_" from by decide, h1,
      List.mergeSort_singleton]
    exact List.mem_singleton.mpr rfl
  · decide

/-- C3 amended: when the stripped filter text is empty, home returns all joined
    rows (up to ordering); when it is nonempty, home returns exactly the rows
    accepted by the wildcard-wrapped ilike match against title, ISBN or author
    name; and on filter text free of the LIKE wildcards percent and underscore
    that match coincides with case-insensitive substring matching. -/
theorem home_filter_characterization (s : Store) (sortArg qArg msgArg : String) :
    (pyStrip qArg = "" → ((home s sortArg qArg msgArg).fst).Perm (joinRows s)) ∧
    (pyStrip qArg ≠ "" → ∀ r, r ∈ (home s sortArg qArg msgArg).fst ↔
      (r ∈ joinRows s ∧ rowMatches (pyStrip qArg) r = true)) ∧
    (∀ q r, (∀ c ∈ sqlLower q, c ≠ '%' ∧ c ≠ '_') →
      rowMatches q r = specMatches q r) := by
  refine ⟨?_, ?_, fun q r hq => rowMatches_eq_specMatches q r hq⟩
  · intro h
    have hperm := home_fst_perm s sortArg qArg msgArg
    rw [h] at hperm
    simpa [filteredRows] using hperm
  · intro h r
    have hb : (pyStrip qArg != "") = true := bne_iff_ne.mpr h
    have hperm := home_fst_perm s sortArg qArg msgArg
    rw [List.Perm.mem_iff hperm,
      show filteredRows s (pyStrip qArg) =
        (joinRows s).filter (rowMatches (pyStrip qArg)) from by simp [filteredRows, hb]]
    exact List.mem_filter

/-- Witness for the amended C3 at concrete stores and filter texts. -/
theorem home_filter_characterization_witness :
    ((home storeAB "title" "" "").fst).Perm (joinRows storeAB) ∧
    (rowAB ∈ (home storeAB "title" "ab" "").fst ↔
      (rowAB ∈ joinRows storeAB ∧ rowMatches (pyStrip "ab") rowAB = true)) ∧
    rowMatches "ab" rowAB = specMatches "ab" rowAB :=
  ⟨(home_filter_characterization storeAB "title" "" "").1 (by decide),
   (home_filter_characterization storeAB "title" "ab" "").2.1 (by decide) rowAB,
   (home_filter_characterization storeAB "title" "x" "").2.2 "ab" rowAB (by decide)⟩

/-- C9: for every store, when the stripped filter text is nonempty and matches
    no joined row and the msg parameter is at its default empty value, home
    returns the empty listing together with the no-match message that contains
    the filter text. -/
theorem home_no_match_message (s : Store) (sortArg qArg msgArg : String)
    (hq : pyStrip qArg ≠ "") (hmsg : pyStrip msgArg = "")
    (hnone : ∀ r ∈ joinRows s, rowMatches (pyStrip qArg) r = false) :
    home s sortArg qArg msgArg =
      ([], some ("No books match: \x27" ++ pyStrip qArg ++ "\x27")) := by
  have hb : (pyStrip qArg != "") = true := bne_iff_ne.mpr hq
  have hm2 : (pyStrip msgArg != "") = false := by rw [hmsg]; rfl
  have hfil : filteredRows s (pyStrip qArg) = [] := by
    simp only [filteredRows, hb, if_pos]
    exact List.filter_eq_nil_iff.mpr (fun r hr => by simp [hnone r hr])
  simp only [home]
  rw [hfil]
  simp [List.mergeSort_nil, hb, hm2]

/-- Witness for C9 on the empty store with a filter that matches nothing. -/
theorem home_no_match_message_witness :
    home storeEmpty "title" "zzz" "" =
      ([], some ("No books match: \x27" ++ pyStrip "zzz" ++ "\x27")) :=
  home_no_match_message storeEmpty "title" "zzz" "" (by decide) (by decide)
    (by intro r hr
        rw [show joinRows storeEmpty = ([] : List Row) from by decide] at hr
        exact absurd hr (List.not_mem_nil r))

/-- C5 counterexample: a call with empty name and a malformed birth date does
    not produce the ValidationError outcome; the date parse on line 67 of
    src/app.py runs before the name check and raises ValueError. -/
theorem add_author_empty_name_counterexample :
    add_author storeEmpty "" "notadate" "" = Except.error PyError.valueError := by
  rfl

/-- C5 amended: for every add_author call whose name strips to empty and whose
    date fields are each absent or well-formed, the operation fails with the
    ValidationError message and the store is unchanged (no record created). -/
theorem add_author_empty_name (s : Store) (nameArg birthArg deathArg : String)
    (hname : pyStrip nameArg = "")
    (hb : parseOptDate (pyStrip birthArg) ≠ none)
    (hd : parseOptDate (pyStrip deathArg) ≠ none) :
    add_author s nameArg birthArg deathArg =
      Except.ok (s, AddAuthorResult.validationError "Name is required.") := by
  obtain ⟨b, hb2⟩ := Option.ne_none_iff_exists.mp hb
  obtain ⟨d, hd2⟩ := Option.ne_none_iff_exists.mp hd
  unfold add_author
  simp only [← hb2, ← hd2]
  simp [hname]

/-- Witness for the amended C5: whitespace-only name with a well-formed birth
    date yields the validation outcome and leaves the store unchanged. -/
theorem add_author_empty_name_witness :
    add_author storeAB "  " "2020-01-02" "" =
      Except.ok (storeAB, AddAuthorResult.validationError "Name is required.") :=
  add_author_empty_name storeAB "  " "2020-01-02" "" (by decide) (by decide) (by decide)

/-- C6 counterexample: a provided date that is no valid ISO 8601 calendar date
    makes add_author raise ValueError (here month 13), not return the
    ValidationError outcome the claim requires. -/
theorem add_author_bad_date_counterexample :
    add_author storeEmpty "Alice" "2020-13-01" "" = Except.error PyError.valueError := by
  rfl

/-- C6 amended: a provided date field that does not parse as an ISO 8601
    calendar date makes add_author raise an uncaught ValueError (so the
    outcomes are Author, ValidationError or a raised parse error), with no
    record created; absent date fields are stored as null on success. -/
theorem add_author_dates (s : Store) (nameArg birthArg deathArg : String) :
    (pyStrip birthArg ≠ "" → fromisoformat (pyStrip birthArg) = none →
      add_author s nameArg birthArg deathArg = Except.error PyError.valueError) ∧
    (parseOptDate (pyStrip birthArg) ≠ none → pyStrip deathArg ≠ "" →
      fromisoformat (pyStrip deathArg) = none →
      add_author s nameArg birthArg deathArg = Except.error PyError.valueError) ∧
    (pyStrip nameArg ≠ "" → pyStrip birthArg = "" → pyStrip deathArg = "" →
      add_author s nameArg birthArg deathArg = Except.ok
        ({ s with authors := s.authors ++
            [{ id := nextAuthorId s, name := pyStrip nameArg, birth_date := none,
               date_of_death := none }] },
         AddAuthorResult.success
           ("Author \x27" ++ pyStrip nameArg ++ "\x27 added successfully."))) := by
  refine ⟨?_, ?_, ?_⟩
  · intro h1 h2
    have e : parseOptDate (pyStrip birthArg) = none := by simp [parseOptDate, h1, h2]
    unfold add_author
    simp only [e]
  · intro hb h1 h2
    obtain ⟨b, hb2⟩ := Option.ne_none_iff_exists.mp hb
    have e : parseOptDate (pyStrip deathArg) = none := by simp [parseOptDate, h1, h2]
    unfold add_author
    simp only [← hb2, e]
  · intro hn h1 h2
    have e1 : parseOptDate (pyStrip birthArg) = some none := by simp [parseOptDate, h1]
    have e2 : parseOptDate (pyStrip deathArg) = some none := by simp [parseOptDate, h2]
    have hne : (pyStrip nameArg == "") = false := beq_eq_false_iff_ne.mpr hn
    unfold add_author
    simp only [e1, e2]
    simp [hne]

/-- Witness for the amended C6: an invalid calendar day raises, a malformed
    death date raises, and absent dates are stored as null. -/
theorem add_author_dates_witness :
    add_author storeEmpty "A" "2021-02-30" "" = Except.error PyError.valueError ∧
    add_author storeEmpty "A" "2021-01-01" "x" = Except.error PyError.valueError ∧
    add_author storeEmpty "A" "" "" = Except.ok
      ({ storeEmpty with authors := storeEmpty.authors ++
          [{ id := nextAuthorId storeEmpty, name := pyStrip "A", birth_date := none,
             date_of_death := none }] },
       AddAuthorResult.success
         ("Author \x27" ++ pyStrip "A" ++ "\x27 added successfully.")) :=
  ⟨(add_author_dates storeEmpty "A" "2021-02-30" "").1 (by decide) (by decide),
   (add_author_dates storeEmpty "A" "2021-01-01" "x").2.1 (by decide) (by decide)
     (by decide),
   (add_author_dates storeEmpty "A" "" "").2.2 (by decide) (by decide) (by decide)⟩

/-- C2: for every store, an add_book call that reaches the persist step (fields
    nonempty after stripping, year and author id parseable) with an ISBN equal
    to an existing book ISBN fails with the conflict outcome, leaves the store
    exactly as before, and its message names the conflicting ISBN. -/
theorem add_book_conflict (s : Store) (isbnArg titleArg pubArg authorArg : String)
    (hisbn : pyStrip isbnArg ≠ "") (htitle : pyStrip titleArg ≠ "")
    (hauthor : pyStrip authorArg ≠ "")
    (hpub : parseOptInt (pyStrip pubArg) ≠ none)
    (haid : pyInt (pyStrip authorArg) ≠ none)
    (hconf : ∃ b ∈ s.books, b.isbn = pyStrip isbnArg) :
    add_book s isbnArg titleArg pubArg authorArg = Except.ok
      (s, AddBookResult.conflictError
        ("ISBN \x27" ++ pyStrip isbnArg ++
          "\x27 already exists. Please use a unique ISBN or edit the existing book.")) := by
  obtain ⟨y, hy⟩ := Option.ne_none_iff_exists.mp hpub
  obtain ⟨k, hk⟩ := Option.ne_none_iff_exists.mp haid
  have hc : isbnConflict s (pyStrip isbnArg) = true := by
    obtain ⟨b, hb, he⟩ := hconf
    exact List.any_eq_true.mpr ⟨b, hb, by simp [he]⟩
  unfold add_book
  rw [if_neg (by simp [hisbn, htitle, hauthor])]
  simp only [← hy, ← hk]
  rw [if_pos hc]

/-- Witness for C2: adding a second book with the ISBN of bookAB conflicts. -/
theorem add_book_conflict_witness :
    add_book storeAB "99" "Dup" "" "1" = Except.ok
      (storeAB, AddBookResult.conflictError
        ("ISBN \x27" ++ pyStrip "99" ++
          "\x27 already exists. Please use a unique ISBN or edit the existing book.")) :=
  add_book_conflict storeAB "99" "Dup" "" "1" (by decide) (by decide) (by decide)
    (by decide) (by decide) ⟨bookAB, by decide, by decide⟩

/-- C7: on an add_book call that passes validation with no ISBN conflict, an
    absent publication year is stored as null, a provided year that parses as
    an integer is stored as exactly that integer in the persisted record, and
    a provided year that does not parse raises ValueError. -/
theorem add_book_publication_year (s : Store) (isbnArg titleArg pubArg authorArg : String)
    (hisbn : pyStrip isbnArg ≠ "") (htitle : pyStrip titleArg ≠ "")
    (hauthor : pyStrip authorArg ≠ "")
    (hconf : isbnConflict s (pyStrip isbnArg) = false) :
    (∀ k, pyInt (pyStrip authorArg) = some k →
      ((pyStrip pubArg = "" →
        add_book s isbnArg titleArg pubArg authorArg = Except.ok
          ({ s with books := s.books ++
              [{ id := nextBookId s, isbn := pyStrip isbnArg, title := pyStrip titleArg,
                 publication_year := none, author_id := k }] },
           AddBookResult.success
             ("Book \x27" ++ pyStrip titleArg ++ "\x27 added successfully."))) ∧
      (∀ n, pyInt (pyStrip pubArg) = some n →
        add_book s isbnArg titleArg pubArg authorArg = Except.ok
          ({ s with books := s.books ++
              [{ id := nextBookId s, isbn := pyStrip isbnArg, title := pyStrip titleArg,
                 publication_year := some n, author_id := k }] },
           AddBookResult.success
             ("Book \x27" ++ pyStrip titleArg ++ "\x27 added successfully."))))) ∧
    (pyStrip pubArg ≠ "" → pyInt (pyStrip pubArg) = none →
      add_book s isbnArg titleArg pubArg authorArg = Except.error PyError.valueError) := by
  constructor
  · intro k hk
    constructor
    · intro hp
      have e : parseOptInt (pyStrip pubArg) = some none := by simp [parseOptInt, hp]
      unfold add_book
      rw [if_neg (by simp [hisbn, htitle, hauthor])]
      simp only [e, hk]
      rw [if_neg (by simp [hconf])]
    · intro n hn
      have hne : pyStrip pubArg ≠ "" := by
        intro h
        rw [h, show pyInt "" = none from rfl] at hn
        exact Option.noConfusion hn
      have e : parseOptInt (pyStrip pubArg) = some (some n) := by
        simp [parseOptInt, hne, hn]
      unfold add_book
      rw [if_neg (by simp [hisbn, htitle, hauthor])]
      simp only [e, hk]
      rw [if_neg (by simp [hconf])]
  · intro hp hn
    have e : parseOptInt (pyStrip pubArg) = none := by simp [parseOptInt, hp, hn]
    unfold add_book
    rw [if_neg (by simp [hisbn, htitle, hauthor])]
    simp only [e]

/-- Witness for C7: the year text 1954 is stored as the integer 1954, and a
    malformed year text raises. -/
theorem add_book_publication_year_witness :
    add_book storeAB "123" "LOTR" "1954" "1" = Except.ok
      ({ storeAB with books := storeAB.books ++
          [{ id := nextBookId storeAB, isbn := pyStrip "123", title := pyStrip "LOTR",
             publication_year := some 1954, author_id := 1 }] },
       AddBookResult.success
         ("Book \x27" ++ pyStrip "LOTR" ++ "\x27 added successfully.")) ∧
    add_book storeAB "124" "T" "19x4" "1" = Except.error PyError.valueError :=
  ⟨((add_book_publication_year storeAB "123" "LOTR" "1954" "1" (by decide) (by decide)
      (by decide) (by decide)).1 1 (by decide)).2 1954 (by decide),
   (add_book_publication_year storeAB "124" "T" "19x4" "1" (by decide) (by decide)
      (by decide) (by decide)).2 (by decide) (by decide)⟩

/-- C1: for every existing book id, delete_book removes exactly that book row
    (the result rows are a sublist of the old ones, the found row is gone, and
    every other row persists); the author row is removed when no book of that
    author remains and persists when at least one remains; and for a book id
    matching no row, delete_book fails with the not-found outcome and changes
    nothing. -/
theorem delete_book_correct (s : Store) (book_id : Int) :
    (s.books.find? (fun b => b.id == book_id) = none →
      delete_book s book_id = Except.error DeleteError.notFound) ∧
    (∀ book, s.books.find? (fun b => b.id == book_id) = some book →
      ∃ s2, delete_book s book_id =
          Except.ok (s2, "Deleted book \x27" ++ book.title ++ "\x27.") ∧
        s2.books.Sublist s.books ∧
        book ∉ s2.books ∧
        (∀ b ∈ s.books, b.id ≠ book_id → b ∈ s2.books) ∧
        ((∀ b ∈ s.books, b.id ≠ book_id → b.author_id ≠ book.author_id) →
          ∀ a ∈ s2.authors, a.id ≠ book.author_id) ∧
        ((∃ b ∈ s.books, b.id ≠ book_id ∧ b.author_id = book.author_id) →
          s2.authors = s.authors)) := by
  constructor
  · intro h
    unfold delete_book
    rw [h]
  · intro book hfind
    have hid : book.id = book_id := by
      have := List.find?_some hfind
      simpa using this
    have hmem_books : ∀ b, b ∈ s.books.filter (fun b => b.id != book_id) ↔
        (b ∈ s.books ∧ b.id ≠ book_id) := by
      intro b
      rw [List.mem_filter, bne_iff_ne]
    have hbook_not : book ∉ s.books.filter (fun b => b.id != book_id) := by
      intro hmem
      exact ((hmem_books book).mp hmem).2 hid
    have hsub : (s.books.filter (fun b => b.id != book_id)).Sublist s.books :=
      List.filter_sublist _
    by_cases hrem0 : ((s.books.filter (fun b => b.id != book_id)).filter
        (fun b => b.author_id == book.author_id)).length = 0
    · have hremb : (((s.books.filter (fun b => b.id != book_id)).filter
          (fun b => b.author_id == book.author_id)).length == 0) = true :=
        beq_iff_eq.mpr hrem0
      have hpersist : (∃ b ∈ s.books, b.id ≠ book_id ∧ b.author_id = book.author_id) →
          False := by
        rintro ⟨b, hb, hne, hae⟩
        have hmemf : b ∈ (s.books.filter (fun b => b.id != book_id)).filter
            (fun b => b.author_id == book.author_id) :=
          List.mem_filter.mpr ⟨(hmem_books b).mpr ⟨hb, hne⟩, by simp [hae]⟩
        rw [List.length_eq_zero.mp hrem0] at hmemf
        exact absurd hmemf (List.not_mem_nil b)
      cases hfa : s.authors.find? (fun a => a.id == book.author_id) with
      | some a =>
        refine ⟨{ authors := s.authors.filter (fun a => a.id != book.author_id),
                  books := s.books.filter (fun b => b.id != book_id) },
          ?_, hsub, hbook_not, ?_, ?_, fun hex => absurd hex (fun hx => hpersist hx)⟩
        · unfold delete_book
          rw [hfind]
          dsimp only
          rw [if_pos hremb, hfa]
        · intro b hb hne
          exact (hmem_books b).mpr ⟨hb, hne⟩
        · intro _ a2 ha2
          exact bne_iff_ne.mp (List.mem_filter.mp ha2).2
      | none =>
        refine ⟨{ authors := s.authors,
                  books := s.books.filter (fun b => b.id != book_id) },
          ?_, hsub, hbook_not, ?_, ?_, fun _ => rfl⟩
        · unfold delete_book
          rw [hfind]
          dsimp only
          rw [if_pos hremb, hfa]
        · intro b hb hne
          exact (hmem_books b).mpr ⟨hb, hne⟩
        · intro _ a2 ha2
          have := List.find?_eq_none.mp hfa a2 ha2
          simpa using this
    · have hremb : (((s.books.filter (fun b => b.id != book_id)).filter
          (fun b => b.author_id == book.author_id)).length == 0) = false :=
        beq_eq_false_iff_ne.mpr hrem0
      refine ⟨{ authors := s.authors,
                books := s.books.filter (fun b => b.id != book_id) },
        ?_, hsub, hbook_not, ?_, ?_, fun _ => rfl⟩
      · unfold delete_book
        rw [hfind]
        dsimp only
        rw [if_neg (by rw [hremb]; exact Bool.false_ne_true)]
      · intro b hb hne
        exact (hmem_books b).mpr ⟨hb, hne⟩
      · intro hza
        exfalso
        apply hrem0
        rw [List.length_eq_zero]
        refine List.filter_eq_nil_iff.mpr (fun b hbf => ?_)
        obtain ⟨hb, hne⟩ := (hmem_books b).mp hbf
        simpa using hza b hb hne

/-- Witness for C1: a missing id fails with not-found, and deleting one of two
    books of the same author keeps the author row. -/
theorem delete_book_correct_witness :
    delete_book storeAB 2 = Except.error DeleteError.notFound ∧
    (∃ s2, delete_book storeTwo 1 =
        Except.ok (s2, "Deleted book \x27" ++ bookAB.title ++ "\x27.") ∧
      s2.authors = storeTwo.authors) := by
  constructor
  · exact (delete_book_correct storeAB 2).1 (by decide)
  · obtain ⟨s2, heq, _, _, _, _, hpers⟩ :=
      (delete_book_correct storeTwo 1).2 bookAB (by decide)
    exact ⟨s2, heq, hpers ⟨bookCD, by decide, by decide, by decide⟩⟩

/-- C10: when the found book's author row is already absent and no book of that
    author id remains after the delete, delete_book does not fail: it skips the
    author-deletion step, leaves the authors unchanged, and still returns the
    confirmation containing the deleted title. -/
theorem delete_book_missing_author (s : Store) (book_id : Int) (book : Book)
    (hfind : s.books.find? (fun b => b.id == book_id) = some book)
    (hrem : ((s.books.filter (fun b => b.id != book_id)).filter
        (fun b => b.author_id == book.author_id)).length = 0)
    (habsent : s.authors.find? (fun a => a.id == book.author_id) = none) :
    delete_book s book_id =
      Except.ok ({ s with books := s.books.filter (fun b => b.id != book_id) },
        "Deleted book \x27" ++ book.title ++ "\x27.") := by
  have hremb : (((s.books.filter (fun b => b.id != book_id)).filter
      (fun b => b.author_id == book.author_id)).length == 0) = true :=
    beq_iff_eq.mpr hrem
  unfold delete_book
  rw [hfind]
  simp [hremb, habsent]

/-- Witness for C10 on a store whose only book references a missing author. -/
theorem delete_book_missing_author_witness :
    delete_book storeGhost 3 =
      Except.ok ({ storeGhost with
          books := storeGhost.books.filter (fun b => b.id != 3) },
        "Deleted book \x27" ++ bookGhost.title ++ "\x27.") :=
  delete_book_missing_author storeGhost 3 bookGhost (by decide) (by decide) (by decide)

/-- An add_author request never changes the books table. -/
theorem applyOp_addAuthor_books (s : Store) (n b d : String) :
    (applyOp s (Op.addAuthor n b d)).books = s.books := by
  unfold applyOp add_author
  cases h1 : parseOptDate (pyStrip b) with
  | none => simp [h1]
  | some bd =>
    cases h2 : parseOptDate (pyStrip d) with
    | none => simp [h1, h2]
    | some dd =>
      by_cases hn : (pyStrip n == "") = true
      · simp [h1, h2, hn]
      · simp [h1, h2, hn]

/-- An add_book request preserves ISBN uniqueness: the only path that grows the
    books table first checks that no stored book carries the new ISBN. -/
theorem applyOp_addBook_isbnUnique (s : Store) (i t p a : String)
    (h : isbnUnique s) : isbnUnique (applyOp s (Op.addBook i t p a)) := by
  unfold applyOp add_book
  by_cases hv : (pyStrip i == "" || pyStrip t == "" || pyStrip a == "") = true
  · simp only [hv, if_pos]
    exact h
  · cases h1 : parseOptInt (pyStrip p) with
    | none => simp only [hv, h1, if_neg, Bool.not_eq_true]; simpa using h
    | some y =>
      cases h2 : pyInt (pyStrip a) with
      | none => simp only [hv, h1, h2, if_neg, Bool.not_eq_true]; simpa using h
      | some k =>
        by_cases hc : isbnConflict s (pyStrip i) = true
        · simp only [hv, h1, h2, hc]
          simpa using h
        · have hgoal : isbnUnique { s with books := s.books ++
              [{ id := nextBookId s, isbn := pyStrip i, title := pyStrip t,
                 publication_year := y, author_id := k }] } := by
            unfold isbnUnique at h ⊢
            simp only [List.map_append]
            rw [List.nodup_append]
            refine ⟨h, List.nodup_singleton _, ?_⟩
            simp only [List.map_cons, List.map_nil]
            rw [ List.disjoint_singleton]
            intro hmem
            obtain ⟨bk, hbk, he⟩ := List.mem_map.mp hmem
            apply hc
            exact List.any_eq_true.mpr ⟨bk, hbk, by simp [he]⟩
          simp [hv, h1, h2, hc]
          exact hgoal

/-- A successful delete_book leaves the books table filtered by the deleted
    id, whatever happens to the author row. -/
theorem delete_book_ok_books (s : Store) (bid : Int) (book : Book)
    (hf : s.books.find? (fun b => b.id == bid) = some book) :
    ∃ s2 m, delete_book s bid = Except.ok (s2, m) ∧
      s2.books = s.books.filter (fun b => b.id != bid) := by
  unfold delete_book
  rw [hf]
  refine ⟨_, _, rfl, ?_⟩
  dsimp only
  split
  · split <;> rfl
  · rfl

/-- A delete_book request preserves ISBN uniqueness: the books table only ever
    shrinks. -/
theorem applyOp_deleteBook_isbnUnique (s : Store) (bid : Int)
    (h : isbnUnique s) : isbnUnique (applyOp s (Op.deleteBook bid)) := by
  cases hf : s.books.find? (fun b => b.id == bid) with
  | none =>
    have he : delete_book s bid = Except.error DeleteError.notFound := by
      unfold delete_book
      rw [hf]
    simp only [applyOp]
    rw [he]
    exact h
  | some book =>
    obtain ⟨s2, m, heq, hbooks⟩ := delete_book_ok_books s bid book hf
    simp only [applyOp]
    rw [heq]
    show isbnUnique s2
    unfold isbnUnique at h ⊢
    rw [hbooks]
    exact List.Nodup.sublist ( List.Sublist.map Book.isbn (List.filter_sublist _)) h

/-- C8: every store reachable from an ISBN-unique store by any sequence of
    add_author, add_book, delete_book and listing requests is ISBN-unique. -/
theorem isbn_unique_invariant (ops : List Op) (s : Store) (h : isbnUnique s) :
    isbnUnique (ops.foldl applyOp s) := by
  induction ops generalizing s with
  | nil => exact h
  | cons op ops ih =>
    rw [List.foldl_cons]
    apply ih
    cases op with
    | addAuthor n b d =>
      unfold isbnUnique
      rw [applyOp_addAuthor_books]
      exact h
    | addBook i t p a => exact applyOp_addBook_isbnUnique s i t p a h
    | deleteBook bid => exact applyOp_deleteBook_isbnUnique s bid h
    | listBooks x y z => exact h

/-- Witness for C8 on a concrete request sequence from the empty store. -/
theorem isbn_unique_invariant_witness :
    isbnUnique (List.foldl applyOp storeEmpty
      [Op.addAuthor "A" "" "", Op.addBook "1" "T" "" "1", Op.deleteBook 1,
       Op.listBooks "title" "" ""]) :=
  isbn_unique_invariant
    [Op.addAuthor "A" "" "", Op.addBook "1" "T" "" "1", Op.deleteBook 1,
     Op.listBooks "title" "" ""] storeEmpty (by simp [isbnUnique, storeEmpty])

end BookAlchemy
